import Mathlib

/-!
Shallow embedding of `glean.py` (u1i/glean), a CLI tool that sends text to a
completion API and can list the remote model catalog through a 6-hour
filesystem cache.  The pure control flow of the Python source is translated
into executable Lean definitions; the filesystem, the clock and the network
are passed in explicitly as an environment value.
-/

namespace Glean

/-! ## Model catalog data (`/api/v1/models` response and cache content) -/

/-- A JSON scalar as it may appear in a pricing object: a string, a number,
JSON `null`, or any other JSON value (array/object).  `float(v)` in Python
succeeds on strings that parse as decimals and on numbers, and raises
`TypeError` on `None` and other non-string non-number values. -/
inductive JVal where
  | str (s : String)
  | num (q : ℚ)
  | null
  | other
deriving DecidableEq

/-- The `pricing` object of a model descriptor; `none` fields are absent keys
(`pricing.get` then yields the default value given at the call site). -/
structure PricingObj where
  prompt : Option JVal
  completion : Option JVal
deriving DecidableEq

/-- One model descriptor of the catalog.  `none` fields are absent keys;
`model.get` supplies the defaults used by `list_models`. -/
structure ModelEntry where
  id : Option String
  name : Option String
  context_length : Option Nat
  pricing : Option PricingObj
  description : Option String
deriving DecidableEq

/-- The models endpoint returns either an object with key `data` holding the
list, or a bare list; `list_models` distinguishes the two by testing
membership of the key `data`. -/
inductive ModelsData where
  | wrapped (models : List ModelEntry)
  | bare (models : List ModelEntry)
deriving DecidableEq

/-! ## Filesystem / network environment for the cache fetcher -/

/-- State of the cache file `tempdir/glean_models_cache.json` when it exists:
its age in seconds (`time.time() - os.path.getmtime(...)`) and its parsed
content, where `none` models content that `json.load` rejects (invalid JSON,
matching the `json.JSONDecodeError` branch of `load_models_from_cache`). -/
structure CacheFile where
  age : ℚ
  data : Option ModelsData

/-- Error raised by `requests.get` (`requests.exceptions.RequestException`),
carried so that re-raising it can be observed. -/
structure FetchError where
  msg : String
deriving DecidableEq

/-- Environment of one `fetch_models_data` call: the cache file (if any) and
what the network would answer if the GET request were issued. -/
structure Env where
  cache : Option CacheFile
  fetchResult : Except FetchError ModelsData

/-- Observable outcome of `fetch_models_data`: the returned value (or the
re-raised fetch error), whether the network request was issued, and whether
the stale-cache warning was printed. -/
structure FetchOutcome where
  result : Except FetchError ModelsData
  networkCalled : Bool
  warned : Bool

/-! ## The cache fetcher (`glean.py` lines 186-250) -/

/-- `is_cache_valid`: the cache file exists and
`time.time() - getmtime < max_age_hours * 3600` (strict comparison). -/
def is_cache_valid (cache : Option CacheFile) (max_age_hours : ℚ := 6) : Bool :=
  match cache with
  | none => false
  | some f => decide (f.age < max_age_hours * 3600)

/-- `load_models_from_cache`: `json.load` of the cache file, `None` on a
missing file (`IOError`) or invalid JSON (`json.JSONDecodeError`). -/
def load_models_from_cache (cache : Option CacheFile) : Option ModelsData :=
  match cache with
  | none => none
  | some f => f.data

/-- The "try to load from cache first" step of `fetch_models_data`: the
cached value when `is_cache_valid` holds and the load succeeds, `none`
otherwise. -/
def fresh_cache_content (env : Env) : Option ModelsData :=
  if is_cache_valid env.cache then load_models_from_cache env.cache else none

/-- `fetch_models_data`: serve a fresh parseable cache without touching the
network; otherwise issue the GET request, and on failure fall back to the
(possibly stale) cache, re-raising the fetch error only when no parseable
cache exists.  (The best-effort cache write on success has no observable
effect on the returned value and is not tracked.) -/
def fetch_models_data (env : Env) : FetchOutcome :=
  match fresh_cache_content env with
  | some cached => { result := .ok cached, networkCalled := false, warned := false }
  | none =>
    match env.fetchResult with
    | .ok models_data => { result := .ok models_data, networkCalled := true, warned := false }
    | .error e =>
      match load_models_from_cache env.cache with
      | some cached => { result := .ok cached, networkCalled := true, warned := true }
      | none => { result := .error e, networkCalled := true, warned := false }

/-- Exit code of a `--list-models` invocation: `list_models` catches every
exception raised by `fetch_models_data` and calls `sys.exit(1)`; on success
`main` calls `sys.exit(0)`. -/
def list_models_exit (env : Env) : Nat :=
  match (fetch_models_data env).result with
  | .ok _ => 0
  | .error _ => 1

/-! ## Concrete environments used as test points -/

/-- An empty bare catalog, used as a distinguishable cache content. -/
def dataCached : ModelsData := .bare []

/-- A distinguishable catalog standing for what the network would return. -/
def dataRemote : ModelsData := .wrapped []

/-- Cache aged 5 h 59 m (21540 s) with parseable content; network
reachable. -/
def envFresh : Env :=
  { cache := some { age := 21540, data := some dataCached }, fetchResult := .ok dataRemote }

/-- Cache aged 6 h 01 m (21660 s) with parseable content; network
reachable. -/
def envStale : Env :=
  { cache := some { age := 21660, data := some dataCached }, fetchResult := .ok dataRemote }

/-- Cache aged 0 seconds (maximally fresh) whose content is invalid JSON;
network reachable. -/
def envFreshCorrupt : Env :=
  { cache := some { age := 0, data := none }, fetchResult := .ok dataRemote }

/-- A sample network failure. -/
def errNet : FetchError := { msg := "connection error" }

/-- Far-stale parseable cache, network failing. -/
def envStaleNetDown : Env :=
  { cache := some { age := 1000000, data := some dataCached }, fetchResult := .error errNet }

/-- No cache file at all, network failing. -/
def envNoCacheNetDown : Env :=
  { cache := none, fetchResult := .error errNet }

/-! ## Settings (`GleanConfig`) and the completion client (`GleanAnalyzer`) -/

/-- The immutable settings record produced by a successful `load_config`:
`api_key` is required, the rest carry the defaults of `GleanConfig.__init__`
when absent from the config file. -/
structure Settings where
  api_key : String
  model : String
  temperature : ℚ
  system_prompt : Option String
  http_proxy : Option String
deriving DecidableEq

/-- Python truthiness of a string: `not s` holds exactly for the empty
string. -/
def str_falsy (s : String) : Bool := s == ""

/-- Python truthiness of an optional string argument: `not x` holds for
`None` and for the empty string. -/
def opt_str_falsy : Option String → Bool
  | none => true
  | some s => str_falsy s

/-- `not text.strip()`: the text is empty or whitespace-only.  Python
`str.strip()` removes leading and trailing whitespace, so the stripped string
is empty exactly when every character is whitespace. -/
def blank (text : String) : Bool := text.toList.all Char.isWhitespace

/-- The literal returned by `GleanAnalyzer.get_default_prompt`. -/
def get_default_prompt : String :=
  "Please provide a comprehensive analysis of the following text including:\n1. A concise summary\n2. Key points and main themes\n3. Important insights or takeaways\n4. Any notable patterns or structure\n\nPlease be thorough but concise in your analysis."

/-- The separator placed between the instruction and the text in the
f-strings of `analyze_text` (`"\n\nText to analyze:\n"`). -/
def analyze_sep : String := "\n\nText to analyze:\n"

/-- The "Prepare the prompt" block of `analyze_text` (lines 102-109):
`if custom_prompt:` is a truthiness test, so `None` and the empty string both
select the default-instruction branch; with a truthy custom prompt the text
is appended only when `text.strip()` is truthy. -/
def build_prompt (text : String) (custom_prompt : Option String) : String :=
  match custom_prompt with
  | some p =>
    if str_falsy p = false then
      if blank text = false then p ++ analyze_sep ++ text else p
    else get_default_prompt ++ analyze_sep ++ text
  | none => get_default_prompt ++ analyze_sep ++ text

/-- Observable outcome of `GleanAnalyzer.analyze_text` up to the point where
the POST request is issued: either the early `EmptyInput` failure (prints an
error and returns `None`, no network traffic), or the request payload
`\x7bmodel, messages, temperature\x7d` that is sent.  Messages are
(role, content) pairs. -/
inductive AnalyzeAction where
  | emptyInputError
  | request (model : String) (temperature : ℚ) (messages : List (String × String))
deriving DecidableEq

/-- `GleanAnalyzer.analyze_text` (lines 92-135): the empty-input guard, the
override resolution (`model_override if model_override else config.model`,
a truthiness test, versus `temperature_override if temperature_override is
not None else config.temperature`), the prompt construction and the message
sequence (optional system message, then exactly one user message). -/
def analyze_text (config : Settings) (text : String) (custom_prompt : Option String)
    (model_override : Option String) (temperature_override : Option ℚ) : AnalyzeAction :=
  if blank text && opt_str_falsy custom_prompt then .emptyInputError
  else
    let model := match model_override with
      | some m => if str_falsy m = false then m else config.model
      | none => config.model
    let temperature := match temperature_override with
      | some t => t
      | none => config.temperature
    let prompt := build_prompt text custom_prompt
    let messages := (match config.system_prompt with
      | some sp => if str_falsy sp = false then [("system", sp)] else []
      | none => []) ++ [("user", prompt)]
    .request model temperature messages

/-- The model field of the request an action would send, if any. -/
def action_model : AnalyzeAction → Option String
  | .emptyInputError => none
  | .request m _ _ => some m

/-- The temperature field of the request an action would send, if any. -/
def action_temperature : AnalyzeAction → Option ℚ
  | .emptyInputError => none
  | .request _ t _ => some t

/-- Settings with only the required key configured: default model
`google/gemini-2.0-flash-exp` and default temperature 0.4. -/
def cfgA : Settings :=
  { api_key := "test-key", model := "google/gemini-2.0-flash-exp",
    temperature := 4 / 10, system_prompt := none, http_proxy := none }

/-- Settings with a custom model name and temperature 0.7, used to make the
fallback observable. -/
def cfgB : Settings :=
  { api_key := "test-key", model := "cfg-model",
    temperature := 7 / 10, system_prompt := none, http_proxy := none }

/-! ## A model of Python `float(...)` on strings and JSON scalars -/

/-- Numeric value of a list of decimal digit characters. -/
def digits_val (l : List Char) : ℕ :=
  l.foldl (fun n c => n * 10 + (c.toNat - 48)) 0

/-- Split a literal at the first exponent marker `e`/`E`, returning the
mantissa characters and, when a marker is present, the exponent characters. -/
def split_exponent : List Char → List Char × Option (List Char)
  | [] => ([], none)
  | c :: t =>
    if c = 'e' ∨ c = 'E' then ([], some t)
    else
      let r := split_exponent t
      (c :: r.1, r.2)

/-- Parse a decimal mantissa `digits[.digits]` into its combined digit value
and the number of fractional digits; at least one digit is required. -/
def parse_mantissa (l : List Char) : Option (ℕ × ℕ) :=
  let ip := l.takeWhile Char.isDigit
  let rest := l.drop ip.length
  match rest with
  | [] => if ip.isEmpty then none else some (digits_val ip, 0)
  | '.' :: frac =>
      if ip.isEmpty ∧ frac.isEmpty then none
      else if frac.all Char.isDigit then some (digits_val (ip ++ frac), frac.length)
      else none
  | _ => none

/-- Parse an exponent `[+|-]digits`. -/
def parse_exponent (l : List Char) : Option ℤ :=
  match l with
  | [] => none
  | '+' :: ds => if ds ≠ [] ∧ ds.all Char.isDigit then some ((digits_val ds : ℕ) : ℤ) else none
  | '-' :: ds => if ds ≠ [] ∧ ds.all Char.isDigit then some (-((digits_val ds : ℕ) : ℤ)) else none
  | ds => if ds.all Char.isDigit then some ((digits_val ds : ℕ) : ℤ) else none

/-- Model of Python `float(s)` on the numeric literals this program meets:
optional sign, decimal mantissa, optional exponent; `none` models the
`ValueError` raised on anything else.  (Python additionally accepts
surrounding whitespace, digit-group underscores and the words for infinities
and NaNs; those forms play no role here.)  The exact real value of the
literal is returned, standing for the nearest double. -/
def parse_float (s : String) : Option ℚ :=
  let l := s.toList
  let sl : ℤ × List Char := match l with
    | '+' :: t => (1, t)
    | '-' :: t => (-1, t)
    | t => (1, t)
  let me := split_exponent sl.2
  match parse_mantissa me.1 with
  | none => none
  | some mf =>
    match me.2 with
    | none => some (mkRat (sl.1 * mf.1) (10 ^ mf.2))
    | some ec =>
      match parse_exponent ec with
      | none => none
      | some e =>
        let ea : ℤ := e - mf.2
        if 0 ≤ ea then some (mkRat (sl.1 * mf.1 * 10 ^ ea.toNat) 1)
        else some (mkRat (sl.1 * mf.1) (10 ^ (-ea).toNat))

/-- Python `float(v)` on a JSON scalar: parses strings, passes numbers
through, and raises `TypeError` (modelled as `none`) on `None` and other
non-numeric values. -/
def float_of_jval : JVal → Option ℚ
  | .str s => parse_float s
  | .num q => some q
  | .null => none
  | .other => none

/-! ## The detailed model listing (`list_models`, lines 253-307) -/

/-- The f-string expression of lines 279-280: the price-per-token value `q`
scaled by 1000 and printed with 4 decimal places between a dollar sign and
`/1K`.  The scaled value is rounded to the nearest 4-decimal figure (ties
upward; Python formats the nearest double with ties to even, and no tie
arises for the values in this development), via
`round(q * 10^7) = ⌊(2 * num * 10^7 + den) / (2 * den)⌋`. -/
def format_price (q : ℚ) : String :=
  let n : ℤ := Int.fdiv (2 * q.num * 10000000 + q.den) (2 * q.den)
  let sgn := if n < 0 then "-" else ""
  let m := n.natAbs
  let fs := toString (m % 10000)
  "$" ++ sgn ++ toString (m / 10000) ++ "." ++
    String.mk (List.replicate (4 - fs.length) '0') ++ fs ++ "/1K"

/-- Lines 272-283: `pricing = model.get('pricing', \x7b\x7d)`, each field
defaulting to the string `'0'`, then both costs formatted — with both set to
`"N/A"` when either `float(...)` call raises `ValueError` or `TypeError`.
The function is total: no descriptor makes the listing fail here. -/
def pricing_costs (pricing : Option PricingObj) : String × String :=
  let p := pricing.getD { prompt := none, completion := none }
  let prompt_price := p.prompt.getD (JVal.str "0")
  let completion_price := p.completion.getD (JVal.str "0")
  match float_of_jval prompt_price, float_of_jval completion_price with
  | some a, some b => (format_price a, format_price b)
  | _, _ => ("N/A", "N/A")

/-- Lines 290-295: the description line of the detailed listing, if one is
printed.  `if description and len(description) <= 100:` prints the
description verbatim; `elif description:` prints its first 97 characters
followed by `"..."`; an empty (or absent, defaulted to `''`) description
prints nothing. -/
def description_output (m : ModelEntry) : Option String :=
  let description := m.description.getD ""
  if str_falsy description = false ∧ description.length ≤ 100 then
    some ("Description: " ++ description)
  else if str_falsy description = false then
    some ("Description: " ++ String.mk (description.toList.take 97) ++ "...")
  else none

/-- The block of lines the detailed listing prints for one descriptor
(lines 267-297): ID, name, context length, pricing, optional description,
separator. -/
def model_detail_lines (m : ModelEntry) : List String :=
  let model_id := m.id.getD "Unknown"
  let name := m.name.getD "Unknown"
  let context_length := match m.context_length with
    | some n => toString n
    | none => "Unknown"
  let costs := pricing_costs m.pricing
  ["ID: " ++ model_id, "Name: " ++ name, "Context: " ++ context_length ++ " tokens",
    "Pricing: " ++ costs.1 ++ " prompt, " ++ costs.2 ++ " completion"] ++
  (match description_output m with
   | some line => [line]
   | none => []) ++
  [String.mk (List.replicate 60 '-')]

/-! ## The config loader (`GleanConfig.load_config`, lines 33-72) -/

/-- The `[openrouter]` section of `~/.glean_cfg` as `configparser` delivers
it: every present key is a string. -/
structure ConfSection where
  api_key : Option String
  model : Option String
  temperature : Option String
  system_prompt : Option String
  http_proxy : Option String

/-- Outcome of a successful `load_config`: the populated settings and
whether the invalid-temperature warning was printed. -/
structure LoadResult where
  settings : Settings
  tempWarning : Bool

/-- The default model of `GleanConfig.__init__`. -/
def default_model : String := "google/gemini-2.0-flash-exp"

/-- The default temperature 0.4 of `GleanConfig.__init__`. -/
def default_temperature : ℚ := mkRat 4 10

/-- `load_config` over the config-file state: `none` is a missing file,
`some none` a file without an `[openrouter]` section, `some (some sec)` a
file with that section.  `Except.error ()` models the `sys.exit(1)` calls
for the three required-field failures; on success every optional key is
coerced, and a temperature string rejected by `float` only prints a warning
and keeps the default. -/
def load_config (file : Option (Option ConfSection)) : Except Unit LoadResult :=
  match file with
  | none => .error ()
  | some none => .error ()
  | some (some sec) =>
    match sec.api_key with
    | none => .error ()
    | some key =>
      let model := sec.model.getD default_model
      let tw : ℚ × Bool :=
        match sec.temperature with
        | none => (default_temperature, false)
        | some s =>
          match parse_float s with
          | some t => (t, false)
          | none => (default_temperature, true)
      .ok { settings := { api_key := key, model := model, temperature := tw.1,
                          system_prompt := sec.system_prompt,
                          http_proxy := sec.http_proxy },
            tempWarning := tw.2 }

/-! ## `main` up to the configuration load (lines 310-349) -/

/-- The parsed command line. -/
structure Args where
  file : Option String
  prompt : Option String
  model : Option String
  temperature : Option ℚ
  list_models : Bool
  list_models_with_details : Bool

/-- What happened in the stretch of `main` from argument parsing up to (and
excluding) `config.load_config()`: `exitCode = some c` means the process
exited with code `c` inside this stretch, `none` that execution went on to
load the config (`configLoaded = true`); `networkCalled` records whether the
model-listing fetch issued its GET request. -/
structure MainTrace where
  exitCode : Option Nat
  configLoaded : Bool
  networkCalled : Bool
deriving DecidableEq

/-- Lines 334-349 of `main`: the two listing flags are handled (and exit the
process) before the temperature range check, and the range check comes
before the config load. -/
def main_dispatch (args : Args) (env : Env) : MainTrace :=
  if args.list_models then
    { exitCode := some (list_models_exit env), configLoaded := false,
      networkCalled := (fetch_models_data env).networkCalled }
  else if args.list_models_with_details then
    { exitCode := some (list_models_exit env), configLoaded := false,
      networkCalled := (fetch_models_data env).networkCalled }
  else
    match args.temperature with
    | some t =>
      if t < 0 ∨ 1 < t then
        { exitCode := some 1, configLoaded := false, networkCalled := false }
      else
        { exitCode := none, configLoaded := true, networkCalled := false }
    | none => { exitCode := none, configLoaded := true, networkCalled := false }

/-! ## Concrete descriptors, sections and argument vectors -/

/-- A descriptor whose description is present but empty. -/
def entryEmptyDesc : ModelEntry :=
  { id := some "model-a", name := some "Model A", context_length := some 4096,
    pricing := none, description := some "" }

/-- A descriptor with a short (14-character) description. -/
def entryShortDesc : ModelEntry :=
  { id := some "model-b", name := some "Model B", context_length := some 8192,
    pricing := none, description := some "A small model." }

/-- A 150-character description. -/
def longDesc : String := String.mk (List.replicate 150 'x')

/-- A descriptor with the 150-character description. -/
def entryLongDesc : ModelEntry :=
  { id := some "model-c", name := some "Model C", context_length := some 8192,
    pricing := none, description := some longDesc }

/-- A pricing object whose prompt price does not parse as a number. -/
def pricingBad : PricingObj :=
  { prompt := some (.str "free"), completion := some (.str "0.000001") }

/-- A section with a valid api key and an unparseable temperature. -/
def secBadTemp : ConfSection :=
  { api_key := some "sk-test", model := some "some/model",
    temperature := some "abc", system_prompt := some "be brief",
    http_proxy := none }

/-- `--list-models -t 1.5`: a listing request with an out-of-range
temperature. -/
def argsListBadTemp : Args :=
  { file := none, prompt := none, model := none, temperature := some ((3 : ℚ) / 2),
    list_models := true, list_models_with_details := false }

/-- `-t 1.5` on an analysis invocation (no listing flag). -/
def argsBadTemp : Args :=
  { file := none, prompt := none, model := none, temperature := some ((3 : ℚ) / 2),
    list_models := false, list_models_with_details := false }

end Glean

namespace Glean

/-! ## Theorems for the cache fetcher claims -/

/-- Claim C1 as stated is false: for the cache state "file exists with age
0 s (< 6 h) but its content is invalid JSON", `fetch_models_data` does issue
the network request, although the claim asserts that an existing cache file
of age < 6 hours is served with no network call. -/
theorem C1_counterexample :
    is_cache_valid envFreshCorrupt.cache = true ∧
    (fetch_models_data envFreshCorrupt).networkCalled = true := by
  constructor
  · simp only [is_cache_valid, envFreshCorrupt, decide_eq_true_eq]
    norm_num
  · have h : fresh_cache_content envFreshCorrupt = none := by
      simp [fresh_cache_content, is_cache_valid, load_models_from_cache, envFreshCorrupt]
    simp only [fetch_models_data, h]
    rfl

/-- Claim C1 (amended): if the cache file exists, its age is strictly below
6 hours (21600 s) and its content parses as JSON, `fetch_models_data` returns
that content verbatim and issues no network request; if the file is absent,
aged at least 6 hours, or unparseable, the network request is issued. -/
theorem C1_amended (env : Env) :
    (∀ f d, env.cache = some f → f.age < 6 * 3600 → f.data = some d →
        (fetch_models_data env).result = .ok d ∧
        (fetch_models_data env).networkCalled = false) ∧
    ((∀ f, env.cache = some f → 6 * 3600 ≤ f.age ∨ f.data = none) →
        (fetch_models_data env).networkCalled = true) := by
  constructor
  · intro f d hf hage hdata
    have hfresh : fresh_cache_content env = some d := by
      simp [fresh_cache_content, is_cache_valid, load_models_from_cache, hf, hdata, hage]
    simp [fetch_models_data, hfresh]
  · intro h
    have hfresh : fresh_cache_content env = none := by
      rcases hc : env.cache with _ | f
      · simp [fresh_cache_content, is_cache_valid, hc]
      · rcases h f hc with hage | hdata
        · have hnl : ¬ (f.age < 6 * 3600) := not_lt.mpr hage
          simp [fresh_cache_content, is_cache_valid, hc, hnl]
        · simp [fresh_cache_content, is_cache_valid, load_models_from_cache, hc, hdata]
    simp only [fetch_models_data, hfresh]
    cases henv : env.fetchResult with
    | ok d => rfl
    | error e => cases load_models_from_cache env.cache <;> rfl

/-- Witness for C1 (amended): the 5 h 59 m cache is served verbatim with no
network call, and the 6 h 01 m cache triggers the network request. -/
theorem C1_amended_witness :
    ((fetch_models_data envFresh).result = .ok dataCached ∧
      (fetch_models_data envFresh).networkCalled = false) ∧
    (fetch_models_data envStale).networkCalled = true := by
  refine ⟨(C1_amended envFresh).1 _ dataCached rfl (by norm_num) rfl, ?_⟩
  refine (C1_amended envStale).2 ?_
  intro f hf
  left
  simp only [envStale, Option.some.injEq] at hf
  rw [← hf]
  norm_num

/-- Claim C2: whenever the network fetch is issued and fails, a cache file
that parses as JSON (however stale) is returned with the warning printed and
the listing exits with code 0, while an absent or unparseable cache makes the
original fetch error propagate (and the listing exit with code 1). -/
theorem C2_fetch_failure_fallback (env : Env) (e : FetchError)
    (herr : env.fetchResult = .error e)
    (hcall : (fetch_models_data env).networkCalled = true) :
    (∀ d, load_models_from_cache env.cache = some d →
        (fetch_models_data env).result = .ok d ∧
        (fetch_models_data env).warned = true ∧
        list_models_exit env = 0) ∧
    (load_models_from_cache env.cache = none →
        (fetch_models_data env).result = .error e ∧
        list_models_exit env = 1) := by
  have hfresh : fresh_cache_content env = none := by
    cases h : fresh_cache_content env with
    | none => rfl
    | some d =>
      exfalso
      have hnc : (fetch_models_data env).networkCalled = false := by
        simp only [fetch_models_data, h]
      rw [hcall] at hnc
      exact Bool.noConfusion hnc
  constructor
  · intro d hd
    simp [fetch_models_data, list_models_exit, hfresh, herr, hd]
  · intro hd
    simp [fetch_models_data, list_models_exit, hfresh, herr, hd]

/-- Witness for C2: with a far-stale parseable cache and the network down the
cached data is returned, the warning is printed and the listing exits 0; with
no cache file and the network down the fetch error propagates and the listing
exits 1. -/
theorem C2_fetch_failure_fallback_witness :
    ((fetch_models_data envStaleNetDown).result = .ok dataCached ∧
      (fetch_models_data envStaleNetDown).warned = true ∧
      list_models_exit envStaleNetDown = 0) ∧
    ((fetch_models_data envNoCacheNetDown).result = .error errNet ∧
      list_models_exit envNoCacheNetDown = 1) := by
  have h1 : (fetch_models_data envStaleNetDown).networkCalled = true := by
    have h : fresh_cache_content envStaleNetDown = none := by
      have hnl : ¬ ((1000000 : ℚ) < 6 * 3600) := by norm_num
      simp [fresh_cache_content, is_cache_valid, envStaleNetDown, hnl]
    simp only [fetch_models_data, h]
    rfl
  have h2 : (fetch_models_data envNoCacheNetDown).networkCalled = true := by
    have h : fresh_cache_content envNoCacheNetDown = none := by
      simp [fresh_cache_content, is_cache_valid, envNoCacheNetDown]
    simp only [fetch_models_data, h]
    rfl
  exact ⟨(C2_fetch_failure_fallback envStaleNetDown errNet rfl h1).1 dataCached rfl,
    (C2_fetch_failure_fallback envNoCacheNetDown errNet rfl h2).2 rfl⟩

/-! ## Theorems for the completion client claims -/

/-- Claim C3 as stated is false: with the model override present but equal to
the empty string, the request carries `Settings.model` (here the default
`google/gemini-2.0-flash-exp`), not the override, because line 99 tests
truthiness rather than `is not None`. -/
theorem C3_counterexample :
    action_model (analyze_text cfgA "hello" none (some "") none) =
      some "google/gemini-2.0-flash-exp" ∧
    ("google/gemini-2.0-flash-exp" : String) ≠ "" := by
  exact ⟨rfl, by decide⟩

/-- Claim C3 (amended): whenever `analyze_text` issues a request, its model
is the override when one is present and non-empty and `Settings.model`
otherwise (an empty-string override falls back to `Settings.model`), and its
temperature is the override when one is present — an explicit 0.0 included —
and `Settings.temperature` otherwise. -/
theorem C3_amended (config : Settings) (text : String) (cp : Option String)
    (movr : Option String) (tovr : Option ℚ) (m : String) (t : ℚ)
    (msgs : List (String × String))
    (h : analyze_text config text cp movr tovr = .request m t msgs) :
    m = (if movr.getD "" = "" then config.model else movr.getD "") ∧
    t = tovr.getD config.temperature := by
  by_cases hb : (blank text && opt_str_falsy cp) = true
  · rw [analyze_text.eq_def, if_pos hb] at h
    exact absurd h (by simp)
  · rw [analyze_text.eq_def, if_neg hb] at h
    simp only [AnalyzeAction.request.injEq] at h
    refine ⟨?_, ?_⟩
    · rw [← h.1]
      cases movr with
      | none => simp
      | some s =>
        by_cases hs : s = ""
        · simp [hs, str_falsy]
        · simp [hs, str_falsy]
    · rw [← h.2.1]
      cases tovr <;> simp

/-- Witness for C3 (amended): a non-empty override "ovr" together with an
explicit temperature override of 0 is honored against `cfgB` (whose own
model is "cfg-model" and temperature 0.7). -/
theorem C3_amended_witness :
    "ovr" = (if (some "ovr").getD "" = "" then cfgB.model else (some "ovr").getD "") ∧
    (0 : ℚ) = (some (0 : ℚ)).getD cfgB.temperature :=
  C3_amended cfgB "hello" none (some "ovr") (some 0) "ovr" 0
    [("user", build_prompt "hello" none)] rfl

/-- Claim C9: an empty-string model override is treated as absent — the
request carries `Settings.model` — while the temperature override falls back
only when it is `None`. -/
theorem C9_empty_model_override (config : Settings) (text : String)
    (cp : Option String) (tovr : Option ℚ) (m : String) (t : ℚ)
    (msgs : List (String × String))
    (h : analyze_text config text cp (some "") tovr = .request m t msgs) :
    m = config.model ∧ t = tovr.getD config.temperature := by
  by_cases hb : (blank text && opt_str_falsy cp) = true
  · rw [analyze_text.eq_def, if_pos hb] at h
    exact absurd h (by simp)
  · rw [analyze_text.eq_def, if_neg hb] at h
    simp only [AnalyzeAction.request.injEq] at h
    refine ⟨?_, ?_⟩
    · rw [← h.1]
      simp [str_falsy]
    · rw [← h.2.1]
      cases tovr <;> simp

/-- Witness for C9: with `cfgB` (model "cfg-model") and an empty-string model
override, the request model is "cfg-model". -/
theorem C9_empty_model_override_witness :
    "cfg-model" = cfgB.model ∧
    cfgB.temperature = (none : Option ℚ).getD cfgB.temperature :=
  C9_empty_model_override cfgB "hello" none none "cfg-model" cfgB.temperature
    [("user", build_prompt "hello" none)] rfl

/-- Claim C4 as stated is false in its converse direction: here a custom
prompt is supplied (the empty string) and the text is blank, yet
`analyze_text` still fails with the `EmptyInput` error, because line 94
tests `not custom_prompt` (truthiness) rather than `custom_prompt is None`. -/
theorem C4_counterexample :
    analyze_text cfgA "" (some "") none none = .emptyInputError := rfl

/-- Claim C4 (amended): `analyze_text` fails with the `EmptyInput` error —
and therefore never reaches the request, so no network call is attempted —
exactly when the text is blank or whitespace-only and the custom prompt is
absent or empty. -/
theorem C4_amended (config : Settings) (text : String) (cp : Option String)
    (movr : Option String) (tovr : Option ℚ) :
    analyze_text config text cp movr tovr = .emptyInputError ↔
      (blank text = true ∧ (cp = none ∨ cp = some "")) := by
  constructor
  · intro h
    by_cases hb : (blank text && opt_str_falsy cp) = true
    · simp only [Bool.and_eq_true] at hb
      refine ⟨hb.1, ?_⟩
      cases cp with
      | none => exact Or.inl rfl
      | some s =>
        right
        have hs := hb.2
        simp only [opt_str_falsy, str_falsy, beq_iff_eq] at hs
        rw [hs]
    · rw [analyze_text.eq_def, if_neg hb] at h
      exact absurd h (by simp)
  · rintro ⟨hbl, hcp⟩
    have hb : (blank text && opt_str_falsy cp) = true := by
      rcases hcp with rfl | rfl <;> simp [opt_str_falsy, str_falsy, hbl]
    rw [analyze_text.eq_def, if_pos hb]

/-- Claim C5 as stated is false: with a supplied (but empty) custom prompt
and non-blank text "x", the constructed user prompt is the default analysis
instruction plus separator plus text, not the custom prompt plus separator
plus text, because `if custom_prompt:` on line 103 is a truthiness test. -/
theorem C5_counterexample :
    build_prompt "x" (some "") = get_default_prompt ++ analyze_sep ++ "x" ∧
    build_prompt "x" (some "") ≠ "" ++ analyze_sep ++ "x" := by
  constructor
  · rfl
  · decide

/-- Claim C5 (amended): for a supplied non-empty custom prompt the
constructed user prompt is the prompt, the separator and the text when the
text is non-blank, and the prompt alone when the text is blank; with no
custom prompt — or an empty one, which behaves as if absent — it is the
fixed default analysis instruction, the separator and the text. -/
theorem C5_amended (text : String) (p : String) (hp : p ≠ "") :
    (blank text = false → build_prompt text (some p) = p ++ analyze_sep ++ text) ∧
    (blank text = true → build_prompt text (some p) = p) ∧
    build_prompt text none = get_default_prompt ++ analyze_sep ++ text ∧
    build_prompt text (some "") = get_default_prompt ++ analyze_sep ++ text := by
  have hpf : str_falsy p = false := by
    simp [str_falsy, hp]
  refine ⟨?_, ?_, rfl, ?_⟩
  · intro hbl
    simp [build_prompt, hpf, hbl]
  · intro hbl
    simp [build_prompt, hpf, hbl]
  · simp [build_prompt, str_falsy]

/-- Witness for C5 (amended): with custom prompt "Summarize", non-blank text
"x" yields the concatenation and the blank text " " yields the prompt
alone. -/
theorem C5_amended_witness :
    build_prompt "x" (some "Summarize") = "Summarize" ++ analyze_sep ++ "x" ∧
    build_prompt " " (some "Summarize") = "Summarize" :=
  ⟨(C5_amended "x" "Summarize" (by decide)).1 (by decide),
   (C5_amended " " "Summarize" (by decide)).2.1 (by decide)⟩

/-! ## Theorems for the listing, config-loader and main claims -/

/-- Claim C6 as stated is false: `entryEmptyDesc` carries a description of
length 0 ≤ 100, yet the detailed listing prints no description line for it
at all (rather than printing it verbatim), because line 292 also tests the
truthiness of the description. -/
theorem C6_counterexample :
    (entryEmptyDesc.description.getD "").length ≤ 100 ∧
    description_output entryEmptyDesc = none := by
  exact ⟨by decide, rfl⟩

/-- Claim C6 (amended): a non-empty description of length at most 100 is
printed verbatim, a description longer than 100 characters is truncated to
its first 97 characters followed by the ellipsis marker, and an empty (or
absent) description produces no description line. -/
theorem C6_amended (m : ModelEntry) (d : String) (hd : m.description.getD "" = d) :
    (d ≠ "" → d.length ≤ 100 →
        description_output m = some ("Description: " ++ d)) ∧
    (100 < d.length →
        description_output m =
          some ("Description: " ++ String.mk (d.toList.take 97) ++ "...")) ∧
    (d = "" → description_output m = none) := by
  refine ⟨?_, ?_, ?_⟩
  · intro h1 h2
    have hf : str_falsy d = false := by simp [str_falsy, h1]
    simp [description_output, hd, hf, h2]
  · intro h
    have hne : d ≠ "" := by
      intro he
      rw [he] at h
      simp at h
    have hf : str_falsy d = false := by simp [str_falsy, hne]
    have hnle : ¬ (d.length ≤ 100) := not_le.mpr h
    simp [description_output, hd, hf, hnle]
  · intro h
    simp [description_output, hd, h, str_falsy]

set_option maxRecDepth 4000 in
/-- Witness for C6 (amended): the 14-character description is printed
verbatim, the 150-character description is truncated to 97 characters plus
the ellipsis, and the empty description is omitted. -/
theorem C6_amended_witness :
    description_output entryShortDesc = some ("Description: " ++ "A small model.") ∧
    description_output entryLongDesc =
      some ("Description: " ++ String.mk (longDesc.toList.take 97) ++ "...") ∧
    description_output entryEmptyDesc = none :=
  ⟨(C6_amended entryShortDesc "A small model." rfl).1 (by decide) (by decide),
   (C6_amended entryLongDesc longDesc rfl).2.1 (by decide),
   (C6_amended entryEmptyDesc "" rfl).2.2 rfl⟩

/-- Claim C10 as stated is false: a descriptor with no pricing object at all
(absent pricing fields) is priced with the default string `'0'`, so both
costs print as `$0.0000/1K`, not as `"N/A"`. -/
theorem C10_counterexample :
    pricing_costs none = ("$0.0000/1K", "$0.0000/1K") ∧
    ("$0.0000/1K" : String) ≠ "N/A" := by
  exact ⟨by decide, by decide⟩

/-- Claim C10 (amended): when a present pricing field does not parse as a
number, both costs are printed as `"N/A"`; absent pricing fields default to
the parseable string `'0'` and are printed as `$0.0000/1K`.  `pricing_costs`
is total, so the listing never fails on such an entry. -/
theorem C10_amended (po : PricingObj)
    (h : float_of_jval (po.prompt.getD (JVal.str "0")) = none ∨
         float_of_jval (po.completion.getD (JVal.str "0")) = none) :
    pricing_costs (some po) = ("N/A", "N/A") ∧
    pricing_costs none = ("$0.0000/1K", "$0.0000/1K") := by
  refine ⟨?_, by decide⟩
  rcases h with h | h
  · cases hc : float_of_jval (po.completion.getD (JVal.str "0")) <;>
      simp [pricing_costs, h, hc]
  · cases hc : float_of_jval (po.prompt.getD (JVal.str "0")) <;>
      simp [pricing_costs, h, hc]

/-- Witness for C10 (amended): the prompt price `"free"` does not parse, so
both costs become `"N/A"` although the completion price would parse. -/
theorem C10_amended_witness :
    pricing_costs (some pricingBad) = ("N/A", "N/A") ∧
    pricing_costs none = ("$0.0000/1K", "$0.0000/1K") :=
  C10_amended pricingBad (Or.inl (by decide))

/-- Claim C7 as stated is false: on the invocation `--list-models -t 1.5`
the temperature 1.5 lies outside [0, 1], yet the program exits with code 0
(after serving the listing), because lines 334-340 handle the listing flags
and exit before the temperature validation of line 343 runs; with a stale
cache such an invocation even issues a network call first. -/
theorem C7_counterexample :
    (1 : ℚ) < 3 / 2 ∧
    (main_dispatch argsListBadTemp envFresh).exitCode = some 0 ∧
    (main_dispatch argsListBadTemp envStale).networkCalled = true := by
  have hlt : (21540 : ℚ) < 6 * 3600 := by norm_num
  have hfresh : fresh_cache_content envFresh = some dataCached := by
    simp [fresh_cache_content, is_cache_valid, load_models_from_cache, envFresh, hlt]
  have hnl : ¬ ((21660 : ℚ) < 6 * 3600) := by norm_num
  have hstale : fresh_cache_content envStale = none := by
    simp [fresh_cache_content, is_cache_valid, envStale, hnl]
  refine ⟨by norm_num, ?_, ?_⟩
  · simp [main_dispatch, argsListBadTemp, list_models_exit, fetch_models_data, hfresh]
  · have hnet : (fetch_models_data envStale).networkCalled = true := by
      simp only [fetch_models_data, hstale]
      rfl
    simp [main_dispatch, argsListBadTemp, hnet]

/-- Claim C7 (amended): on an invocation with neither listing flag, a CLI
temperature outside the closed interval [0, 1] makes the program exit with
code 1 before the configuration file is loaded and before any network
call. -/
theorem C7_amended (args : Args) (env : Env) (t : ℚ)
    (h1 : args.list_models = false) (h2 : args.list_models_with_details = false)
    (h3 : args.temperature = some t) (h4 : t < 0 ∨ 1 < t) :
    main_dispatch args env =
      { exitCode := some 1, configLoaded := false, networkCalled := false } := by
  simp [main_dispatch, h1, h2, h3, h4]

/-- Witness for C7 (amended): `-t 1.5` without a listing flag exits 1 with
no config load and no network call. -/
theorem C7_amended_witness :
    main_dispatch argsBadTemp envFresh =
      { exitCode := some 1, configLoaded := false, networkCalled := false } :=
  C7_amended argsBadTemp envFresh ((3 : ℚ) / 2) rfl rfl rfl (Or.inr (by norm_num))

/-- Claim C8: a temperature value in the config file that `float` rejects
only prints a warning and falls back to the default 0.4; `load_config` still
succeeds (it never exits the process on an optional-field coercion failure)
and every other field of the resulting settings is populated as usual. -/
theorem C8_coercion_fallback (sec : ConfSection) (key s : String)
    (hk : sec.api_key = some key) (ht : sec.temperature = some s)
    (hbad : parse_float s = none) :
    load_config (some (some sec)) = .ok
      { settings := { api_key := key, model := sec.model.getD default_model,
                      temperature := default_temperature,
                      system_prompt := sec.system_prompt,
                      http_proxy := sec.http_proxy },
        tempWarning := true } := by
  simp [load_config, hk, ht, hbad]

/-- Witness for C8: the section with temperature `"abc"` loads successfully
with the default temperature, the warning flag set, and the remaining keys
taken from the file. -/
theorem C8_coercion_fallback_witness :
    load_config (some (some secBadTemp)) = .ok
      { settings := { api_key := "sk-test", model := secBadTemp.model.getD default_model,
                      temperature := default_temperature,
                      system_prompt := secBadTemp.system_prompt,
                      http_proxy := secBadTemp.http_proxy },
        tempWarning := true } :=
  C8_coercion_fallback secBadTemp "sk-test" "abc" rfl rfl (by decide)

end Glean
